import Mathlib

/-
Verification development for the large-object-transfer interface
(src/lib/include/aws_iot_large_object_transfer.h) and the tinycbor-based
CBOR decoder (src/lib/serializer/cbor/aws_iot_serializer_tinycbor_decoder.c).

Part 1: the types and constants declared in aws_iot_large_object_transfer.h.
Part 2: the CBOR decoder functions of aws_iot_serializer_tinycbor_decoder.c,
embedded as pure functions; external tinycbor calls and pvPortMalloc are
modelled as explicit inputs (success flags and observed values).
Part 3: operations of the transfer engine whose bodies are not present in
the sources (the header only declares them); these are modelled from the
specification and are marked as such in their doc comments.
-/

/-- The AwsIotLargeObjectTransferEvent_t enum of aws_iot_large_object_transfer.h
(lines 38-45): COMPLETE = 0, then RECEIVE, FAILED, TIMEDOUT. -/
inductive AwsIotLargeObjectTransferEvent where
  | COMPLETE
  | RECEIVE
  | FAILED
  | TIMEDOUT
  deriving DecidableEq, Repr, Fintype

/-- Numeric value of each event enumerator, following C enum numbering
(first enumerator 0, each next one more). -/
def eventCode : AwsIotLargeObjectTransferEvent → Nat
  | .COMPLETE => 0
  | .RECEIVE => 1
  | .FAILED => 2
  | .TIMEDOUT => 3

/-- The AwsIotLargeObjectTransferError_t enum of aws_iot_large_object_transfer.h
(lines 50-60): SUCCESS = 0, then the six failure codes in declaration order. -/
inductive AwsIotLargeObjectTransferError where
  | SUCCESS
  | INVALID_PARAM
  | SESSION_IN_PROGRESS
  | SESSION_NOT_FOUND
  | NO_MEMORY
  | BUFFER_TOO_SMALL
  | INTERNAL_ERROR
  deriving DecidableEq, Repr, Fintype

/-- Numeric value of each error enumerator, following C enum numbering. -/
def errorCode : AwsIotLargeObjectTransferError → Nat
  | .SUCCESS => 0
  | .INVALID_PARAM => 1
  | .SESSION_IN_PROGRESS => 2
  | .SESSION_NOT_FOUND => 3
  | .NO_MEMORY => 4
  | .BUFFER_TOO_SMALL => 5
  | .INTERNAL_ERROR => 6

/-- All seven enumerators of AwsIotLargeObjectTransferError_t, in order. -/
def errorValues : List AwsIotLargeObjectTransferError :=
  [.SUCCESS, .INVALID_PARAM, .SESSION_IN_PROGRESS, .SESSION_NOT_FOUND,
   .NO_MEMORY, .BUFFER_TOO_SMALL, .INTERNAL_ERROR]

/-- Flag macro _PARAMS_FLAG_BLOCK_SIZE ( 0x01 ), header line 65. -/
def _PARAMS_FLAG_BLOCK_SIZE : Nat := 0x01

/-- Flag macro _PARAMS_FLAG_WINDOW_SIZE ( 0x02 ), header line 66. -/
def _PARAMS_FLAG_WINDOW_SIZE : Nat := 0x02

/-- Flag macro _PARAMS_FLAG_TIMEOUT ( 0x04 ), header line 67. -/
def _PARAMS_FLAG_TIMEOUT : Nat := 0x04

/-- Flag macro _PARAMS_FLAG_RETRANS ( 0x08 ), header line 68. -/
def _PARAMS_FLAG_RETRANS : Nat := 0x08

/-- Flag macro _PARAMS_FLAG_SESSION_RETENTION ( 0x0A ), header line 69,
exactly as the source writes it. -/
def _PARAMS_FLAG_SESSION_RETENTION : Nat := 0x0A

/-- The AwsIotLargeObjectTransferParams_t structure of the header (lines 77-87).
The C integer widths (uint32_t and uint16_t) are modelled as Nat; none of the
claims depend on overflow of these fields. -/
structure AwsIotLargeObjectTransferParams where
  bitmap : Nat
  objectSize : Nat
  blockSize : Nat
  windowSize : Nat
  timeoutMilliseconds : Nat
  numRetransmission : Nat
  sessionTimeout : Nat
  deriving DecidableEq, Repr

/-
Part 2: the CBOR decoder of aws_iot_serializer_tinycbor_decoder.c.
-/

/-- The CborType enumeration of the external tinycbor library, covering every
enumerator the decoder's switch can see. -/
inductive CborType where
  | CborIntegerType
  | CborByteStringType
  | CborTextStringType
  | CborArrayType
  | CborMapType
  | CborTagType
  | CborSimpleType
  | CborBooleanType
  | CborNullType
  | CborUndefinedType
  | CborHalfFloatType
  | CborFloatType
  | CborDoubleType
  | CborInvalidType
  deriving DecidableEq, Repr, Fintype

/-- The AwsIotSerializerDataType_t enumerators referenced by the decoder
(aws_iot_serializer.h is not among the sources; the constructors are the ones
the decoder file names). -/
inductive AwsIotSerializerDataType where
  | UNDEFINED
  | SCALAR_SIGNED_INT
  | SCALAR_BOOL
  | SCALAR_BYTE_STRING
  | SCALAR_TEXT_STRING
  | CONTAINER_ARRAY
  | CONTAINER_MAP
  deriving DecidableEq, Repr, Fintype

/-- The AwsIotSerializerError_t enumerators referenced by the decoder. -/
inductive AwsIotSerializerError where
  | SUCCESS
  | UNDEFINED_TYPE
  | INTERNAL_FAILURE
  | OUT_OF_MEMORY
  | INVALID_INPUT
  deriving DecidableEq, Repr, Fintype

/-- Model of a tinycbor CborValue as the decoder observes it: its CBOR type and
the answers the tinycbor accessors give for it (cbor_value_get_int,
cbor_value_is_length_known, cbor_value_get_string_length and the bytes the
string pointer designates). -/
structure CborValueModel where
  type : CborType
  intVal : Int
  lengthKnown : Bool
  getLengthOk : Bool
  stringLength : Nat
  stringBytes : List Nat
  deriving DecidableEq, Repr

/-- The _cborDecoderInternal_t structure of the decoder file (lines 83-87). -/
structure _cborDecoderInternal where
  cborValue : CborValueModel
  isOutermost : Bool
  deriving DecidableEq, Repr

/-- The scalar-value part of AwsIotSerializerDecoderObject_t used by the
decoder: signedInt, pString (None models a NULL pointer; Some bs models a
pointer to bytes bs) and stringLength. -/
structure AwsIotSerializerScalarValue where
  signedInt : Int
  pString : Option (List Nat)
  stringLength : Nat
  deriving DecidableEq, Repr

/-- The AwsIotSerializerDecoderObject_t fields the decoder uses: type, value
and pHandle (None models a NULL handle). -/
structure AwsIotSerializerDecoderObject where
  type : AwsIotSerializerDataType
  value : AwsIotSerializerScalarValue
  pHandle : Option _cborDecoderInternal
  deriving DecidableEq, Repr

/-- The _toSerializerType function (decoder file lines 91-123): a switch over
CborType with a default branch returning AWS_IOT_SERIALIZER_UNDEFINED. -/
def _toSerializerType : CborType → AwsIotSerializerDataType
  | .CborIntegerType => .SCALAR_SIGNED_INT
  | .CborBooleanType => .SCALAR_BOOL
  | .CborByteStringType => .SCALAR_BYTE_STRING
  | .CborTextStringType => .SCALAR_TEXT_STRING
  | .CborArrayType => .CONTAINER_ARRAY
  | .CborMapType => .CONTAINER_MAP
  | _ => .UNDEFINED

/-- The _createDecoderObject function (decoder file lines 127-232).
Inputs: the CborValue model v, the in-out decoder object obj, the isOuterMost
flag, and allocOk modelling whether pvPortMalloc returns non-NULL in the
container branch. Result: the returned AwsIotSerializerError_t and the decoder
object after the call. -/
def _createDecoderObject (v : CborValueModel) (obj : AwsIotSerializerDecoderObject)
    (isOuterMost : Bool) (allocOk : Bool) :
    AwsIotSerializerError × AwsIotSerializerDecoderObject :=
  let dataType := _toSerializerType v.type
  if dataType = .UNDEFINED then
    (.UNDEFINED_TYPE, obj)
  else
    let obj1 := { obj with type := dataType }
    match dataType with
    | .SCALAR_SIGNED_INT =>
      (.SUCCESS, { obj1 with value := { obj1.value with signedInt := v.intVal } })
    | .SCALAR_TEXT_STRING =>
      match obj1.value.pString with
      | none =>
        if v.lengthKnown then
          if v.getLengthOk then
            (.SUCCESS, { obj1 with value :=
              { obj1.value with pString := some v.stringBytes,
                                stringLength := v.stringLength } })
          else
            (.INTERNAL_FAILURE, obj1)
        else
          (.OUT_OF_MEMORY, { obj1 with value :=
            { obj1.value with stringLength := v.stringLength } })
      | some _ =>
        (.SUCCESS, { obj1 with value :=
          { obj1.value with pString := some v.stringBytes,
                            stringLength := v.stringLength } })
    | .CONTAINER_MAP =>
      if allocOk then
        (.SUCCESS, { obj1 with pHandle := some ⟨v, isOuterMost⟩ })
      else
        (.OUT_OF_MEMORY, obj1)
    | .CONTAINER_ARRAY =>
      if allocOk then
        (.SUCCESS, { obj1 with pHandle := some ⟨v, isOuterMost⟩ })
      else
        (.OUT_OF_MEMORY, obj1)
    | _ =>
      (.UNDEFINED_TYPE, obj1)

/-- The _init function (decoder file lines 236-263). parserInitOk models
whether cbor_parser_init returns CborNoError and v models the CborValue it
produces for the start of the buffer. On parser success the result of
_createDecoderObject is discarded and the local returnError, still
AWS_IOT_SERIALIZER_SUCCESS, is returned. -/
def _init (parserInitOk : Bool) (v : CborValueModel)
    (obj : AwsIotSerializerDecoderObject) (allocOk : Bool) :
    AwsIotSerializerError × AwsIotSerializerDecoderObject :=
  if parserInitOk then
    (.SUCCESS, (_createDecoderObject v obj true allocOk).2)
  else
    (.INTERNAL_FAILURE, obj)

/-- The _stepIn function (decoder file lines 300-327). enterOk models whether
cbor_value_enter_container returns CborNoError, innerV the inner CborValue it
produces, freshObj the freshly allocated (uninitialized) inner decoder object.
On container-enter success the error assigned from _createDecoderObject is
overwritten with AWS_IOT_SERIALIZER_SUCCESS; the iterator result is the inner
object with its type field overwritten by the outer object's type. On failure
the fresh object is freed (None). -/
def _stepIn (enterOk : Bool) (innerV : CborValueModel)
    (obj : AwsIotSerializerDecoderObject) (freshObj : AwsIotSerializerDecoderObject)
    (allocOk : Bool) :
    AwsIotSerializerError × Option AwsIotSerializerDecoderObject :=
  if enterOk then
    (.SUCCESS, some { (_createDecoderObject innerV freshObj false allocOk).2
                        with type := obj.type })
  else
    (.INTERNAL_FAILURE, none)

/-- The _destroy function (decoder file lines 373-389): a NULL pHandle yields
AWS_IOT_SERIALIZER_INVALID_INPUT and no change; otherwise the internal state is
freed, pHandle is set to NULL and AWS_IOT_SERIALIZER_SUCCESS is returned. -/
def _destroy (obj : AwsIotSerializerDecoderObject) :
    AwsIotSerializerError × AwsIotSerializerDecoderObject :=
  match obj.pHandle with
  | none => (.INVALID_INPUT, obj)
  | some _ => (.SUCCESS, { obj with pHandle := none })

/-
Part 3: transfer-engine operations. The header declares these functions but no
.c file with their bodies is among the sources, so they are modelled from the
specification, as their doc comments record.
-/

/-- Modelled from the spec: the session state set of the data model, state one
of Idle, Negotiating, Active, Complete, Failed, TimedOut, Aborted; no state
enumeration appears in the sources. -/
inductive SessionState where
  | Idle
  | Negotiating
  | Active
  | Complete
  | Failed
  | TimedOut
  | Aborted
  deriving DecidableEq, Repr, Fintype

/-- Modelled from the spec: the Session entity of the data model, carrying its
state, parameters, progress cursor and per-window retry counter; the sources
hold only the opaque handle type. -/
structure Session where
  state : SessionState
  params : AwsIotLargeObjectTransferParams
  progressCursor : Nat
  retryCount : Nat
  deriving DecidableEq, Repr

/-- Modelled from the spec: the body of AwsIotLargeObjectTransfer_Resume is
not among the sources (the header only declares it). Per the spec, resume is
valid only from Failed or TimedOut; it re-enters Active at the last-known
progress cursor without re-negotiating parameters and re-arms retry counters.
The spec names no particular failure code for a resume from any other state,
only that the call is invalid there; INVALID_PARAM stands for that rejection. -/
def AwsIotLargeObjectTransfer_Resume (s : Session) :
    AwsIotLargeObjectTransferError × Session :=
  match s.state with
  | .Failed => (.SUCCESS, { s with state := .Active, retryCount := 0 })
  | .TimedOut => (.SUCCESS, { s with state := .Active, retryCount := 0 })
  | _ => (.INVALID_PARAM, s)

/-- The five states from which the spec allows destroy. -/
def destroyAllowed : List SessionState :=
  [.Idle, .Complete, .Failed, .TimedOut, .Aborted]

/-- Modelled from the spec: the body of AwsIotLargeObjectTransfer_Destroy is
not among the sources. Per the spec, destroy fails with SESSION_IN_PROGRESS
unless the state is Idle, Complete, Failed, TimedOut or Aborted; otherwise it
releases the handle and its resources (result None). -/
def AwsIotLargeObjectTransfer_Destroy (s : Session) :
    AwsIotLargeObjectTransferError × Option Session :=
  match s.state with
  | .Idle | .Complete | .Failed | .TimedOut | .Aborted => (.SUCCESS, none)
  | _ => (.SESSION_IN_PROGRESS, some s)

/-- Modelled from the spec: the body of AwsIotLargeObjectTransfer_Abort is not
among the sources. Per the spec, abort immediately transitions any state to
Aborted. -/
def AwsIotLargeObjectTransfer_Abort (s : Session) :
    AwsIotLargeObjectTransferError × Session :=
  (.SUCCESS, { s with state := .Aborted })

/-- Modelled from the spec: one side's negotiation proposal for the Parameter
Negotiator. Each field carries a present marker (the bitmap bit) and a value. -/
structure ParamProposal where
  hasBlockSize : Bool
  blockSize : Nat
  hasWindowSize : Bool
  windowSize : Nat
  hasTimeout : Bool
  timeoutMilliseconds : Nat
  hasRetrans : Bool
  numRetransmission : Nat
  deriving DecidableEq, Repr

/-- Modelled from the spec: the agreed parameter set a successful negotiation
produces. -/
structure AgreedParams where
  blockSize : Nat
  windowSize : Nat
  timeoutMilliseconds : Nat
  numRetransmission : Nat
  deriving DecidableEq, Repr

/-- Modelled from the spec: the Parameter Negotiator has no body among the
sources. Receiver constraints win for blockSize, the minimum of the two sides
is used for windowSize, and the sender's proposal is taken for
timeoutMilliseconds and numRetransmission; an unset bit defers to the peer's
value or a built-in default. The agreed set must satisfy blockSize >= 1 and
windowSize >= 1, else the negotiation fails with INVALID_PARAM. -/
def negotiateParams (sender receiver : ParamProposal) (defaults : AgreedParams) :
    Except AwsIotLargeObjectTransferError AgreedParams :=
  let blockSize :=
    if receiver.hasBlockSize then receiver.blockSize
    else if sender.hasBlockSize then sender.blockSize
    else defaults.blockSize
  let windowSize :=
    if sender.hasWindowSize && receiver.hasWindowSize then
      min sender.windowSize receiver.windowSize
    else if receiver.hasWindowSize then receiver.windowSize
    else if sender.hasWindowSize then sender.windowSize
    else defaults.windowSize
  let tmo :=
    if sender.hasTimeout then sender.timeoutMilliseconds
    else if receiver.hasTimeout then receiver.timeoutMilliseconds
    else defaults.timeoutMilliseconds
  let rtx :=
    if sender.hasRetrans then sender.numRetransmission
    else if receiver.hasRetrans then receiver.numRetransmission
    else defaults.numRetransmission
  if 1 ≤ blockSize ∧ 1 ≤ windowSize then
    Except.ok ⟨blockSize, windowSize, tmo, rtx⟩
  else
    Except.error .INVALID_PARAM

/-- Modelled from the spec: entering Active is gated on a successful
negotiation; a failed negotiation returns its error and leaves the session
unchanged, so the session stays out of Active. -/
def startSession (s : Session) (sender receiver : ParamProposal)
    (defaults : AgreedParams) : AwsIotLargeObjectTransferError × Session :=
  match negotiateParams sender receiver defaults with
  | .ok _ => (.SUCCESS, { s with state := .Active })
  | .error e => (e, s)

/-- Modelled from the spec: the Block Segmenter of Send has no body among the
sources. Number of blocks for object size S and block size B, the ceiling of
S / B computed as in the spec's ceil(S/B). -/
def numBlocks (S B : Nat) : Nat := (S + B - 1) / B

/-- Modelled from the spec: length of block i, blockSize except that the final
block may be shorter. -/
def blockLength (S B i : Nat) : Nat := min B (S - i * B)

/-- Modelled from the spec: the ordered block sequence of a transfer, each
block given as (offset, length). -/
def sendBlocks (S B : Nat) : List (Nat × Nat) :=
  (List.range (numBlocks S B)).map (fun i => (i * B, blockLength S B i))

/-
Sample values shared by witnesses.
-/

/-- A CborValue model of a map container. -/
def sampleMapValue : CborValueModel := ⟨.CborMapType, 0, true, true, 0, []⟩

/-- A CborValue model of a tag, a CBOR type the decoder does not support. -/
def sampleTagValue : CborValueModel := ⟨.CborTagType, 0, true, true, 0, []⟩

/-- A fresh decoder object with no handle and a NULL string pointer. -/
def emptyObject : AwsIotSerializerDecoderObject := ⟨.UNDEFINED, ⟨0, none, 0⟩, none⟩

/-- A decoder object holding an outermost map handle. -/
def sampleMapObject : AwsIotSerializerDecoderObject :=
  ⟨.CONTAINER_MAP, ⟨0, none, 0⟩, some ⟨sampleMapValue, true⟩⟩

/-- A parameter record with every field zero. -/
def zeroParams : AwsIotLargeObjectTransferParams := ⟨0, 0, 0, 0, 0, 0, 0⟩

/-- A session in the Failed state. -/
def sampleFailedSession : Session := ⟨.Failed, zeroParams, 0, 3⟩

/-- A session in the Aborted state. -/
def sampleAbortedSession : Session := ⟨.Aborted, zeroParams, 0, 0⟩

/-- A session in the Idle state. -/
def sampleIdleSession : Session := ⟨.Idle, zeroParams, 0, 0⟩

/-- A session in the Active state. -/
def sampleActiveSession : Session := ⟨.Active, zeroParams, 500, 1⟩

/-
Claim theorems.
-/

/-- C2: the claim states that the five parameter flags are pairwise-disjoint
single bits. The first four are, but the source defines
_PARAMS_FLAG_SESSION_RETENTION as 0x0A, which is not a power of two and
overlaps both _PARAMS_FLAG_WINDOW_SIZE and _PARAMS_FLAG_RETRANS, so setting it
also marks the window-size and retransmission fields. -/
theorem C2_session_retention_flag_overlaps :
    _PARAMS_FLAG_SESSION_RETENTION = 10 ∧
    (¬ ∃ k, _PARAMS_FLAG_SESSION_RETENTION = 2 ^ k) ∧
    _PARAMS_FLAG_SESSION_RETENTION &&& _PARAMS_FLAG_WINDOW_SIZE =
      _PARAMS_FLAG_WINDOW_SIZE ∧
    _PARAMS_FLAG_SESSION_RETENTION &&& _PARAMS_FLAG_RETRANS =
      _PARAMS_FLAG_RETRANS ∧
    _PARAMS_FLAG_BLOCK_SIZE = 2 ^ 0 ∧
    _PARAMS_FLAG_WINDOW_SIZE = 2 ^ 1 ∧
    _PARAMS_FLAG_TIMEOUT = 2 ^ 2 ∧
    _PARAMS_FLAG_RETRANS = 2 ^ 3 := by
  refine ⟨rfl, ?_, rfl, rfl, rfl, rfl, rfl, rfl⟩
  rintro ⟨k, hk⟩
  have hk10 : (10 : Nat) = 2 ^ k := hk
  have hk4 : k < 4 := by
    by_contra h
    have h16 : (2 : Nat) ^ 4 ≤ 2 ^ k := Nat.pow_le_pow_right (by norm_num) (by omega)
    omega
  interval_cases k <;> omega

/-- C3: every value of the event type delivered to the application callback is
one of exactly the four enumerators COMPLETE (code 0), RECEIVE, FAILED and
TIMEDOUT, with pairwise distinct codes; since the callback takes this type,
any event delivery, the one reporting final negotiated parameters after
SetParams included, uses no code outside this set. -/
theorem C3_event_codes_exhaustive :
    eventCode .COMPLETE = 0 ∧
    (∀ e : AwsIotLargeObjectTransferEvent,
        e = .COMPLETE ∨ e = .RECEIVE ∨ e = .FAILED ∨ e = .TIMEDOUT) ∧
    (([.COMPLETE, .RECEIVE, .FAILED, .TIMEDOUT] :
        List AwsIotLargeObjectTransferEvent).map eventCode).Nodup := by
  refine ⟨rfl, ?_, ?_⟩
  · intro e
    cases e
    · exact Or.inl rfl
    · exact Or.inr (Or.inl rfl)
    · exact Or.inr (Or.inr (Or.inl rfl))
    · exact Or.inr (Or.inr (Or.inr rfl))
  · decide

/-- C7: the error enum has exactly the seven enumerators of the header, with
SUCCESS equal to 0 and pairwise distinct codes; every value of the API return
type (among them the results of the modelled Resume, Abort and Destroy calls)
lies in this seven-element set. -/
theorem C7_error_taxonomy :
    errorCode .SUCCESS = 0 ∧
    (∀ e : AwsIotLargeObjectTransferError, e ∈ errorValues) ∧
    errorValues.Nodup ∧
    errorValues.length = 7 ∧
    (errorValues.map errorCode).Nodup ∧
    (∀ s, (AwsIotLargeObjectTransfer_Resume s).1 ∈ errorValues) ∧
    (∀ s, (AwsIotLargeObjectTransfer_Abort s).1 ∈ errorValues) ∧
    (∀ s, (AwsIotLargeObjectTransfer_Destroy s).1 ∈ errorValues) := by
  have hall : ∀ e : AwsIotLargeObjectTransferError, e ∈ errorValues := by
    intro e
    cases e <;> simp [errorValues]
  exact ⟨rfl, hall, by decide, rfl, by decide,
    fun s => hall _, fun s => hall _, fun s => hall _⟩

/-- C9: _destroy with a NULL pHandle returns INVALID_INPUT and leaves the
object unchanged; with a non-NULL pHandle it clears pHandle and returns
SUCCESS; hence a second _destroy after a successful one returns INVALID_INPUT
instead of freeing twice. -/
theorem C9_destroy_null_guard :
    (∀ obj, obj.pHandle = none → _destroy obj = (.INVALID_INPUT, obj)) ∧
    (∀ obj h, obj.pHandle = some h →
        _destroy obj = (.SUCCESS, { obj with pHandle := none })) ∧
    (∀ obj h, obj.pHandle = some h →
        (_destroy (_destroy obj).2).1 = .INVALID_INPUT) := by
  refine ⟨?_, ?_, ?_⟩
  · intro obj hobj
    simp [_destroy, hobj]
  · intro obj h hobj
    simp [_destroy, hobj]
  · intro obj h hobj
    simp [_destroy, hobj]

/-- Witness for C9 at a concrete decoder object holding a map handle. -/
theorem C9_destroy_null_guard_witness :
    sampleMapObject.pHandle = some ⟨sampleMapValue, true⟩ ∧
    _destroy sampleMapObject = (.SUCCESS, { sampleMapObject with pHandle := none }) ∧
    (_destroy (_destroy sampleMapObject).2).1 = .INVALID_INPUT :=
  ⟨rfl, C9_destroy_null_guard.2.1 sampleMapObject ⟨sampleMapValue, true⟩ rfl,
   C9_destroy_null_guard.2.2 sampleMapObject ⟨sampleMapValue, true⟩ rfl⟩

/-- C10: _toSerializerType maps the six supported CBOR types to
SCALAR_SIGNED_INT, SCALAR_BOOL, SCALAR_BYTE_STRING, SCALAR_TEXT_STRING,
CONTAINER_ARRAY and CONTAINER_MAP, and every other CborType to UNDEFINED; and
whenever it gives UNDEFINED, _createDecoderObject returns UNDEFINED_TYPE
leaving the object untouched. -/
theorem C10_type_mapping_total :
    _toSerializerType .CborIntegerType = .SCALAR_SIGNED_INT ∧
    _toSerializerType .CborBooleanType = .SCALAR_BOOL ∧
    _toSerializerType .CborByteStringType = .SCALAR_BYTE_STRING ∧
    _toSerializerType .CborTextStringType = .SCALAR_TEXT_STRING ∧
    _toSerializerType .CborArrayType = .CONTAINER_ARRAY ∧
    _toSerializerType .CborMapType = .CONTAINER_MAP ∧
    (∀ t : CborType,
        t ≠ .CborIntegerType → t ≠ .CborBooleanType → t ≠ .CborByteStringType →
        t ≠ .CborTextStringType → t ≠ .CborArrayType → t ≠ .CborMapType →
        _toSerializerType t = .UNDEFINED) ∧
    (∀ (v : CborValueModel) (obj : AwsIotSerializerDecoderObject) (om ok : Bool),
        _toSerializerType v.type = .UNDEFINED →
        _createDecoderObject v obj om ok = (.UNDEFINED_TYPE, obj)) := by
  refine ⟨rfl, rfl, rfl, rfl, rfl, rfl, ?_, ?_⟩
  · intro t h1 h2 h3 h4 h5 h6
    cases t <;> simp_all <;> rfl
  · intro v obj om ok h
    simp [_createDecoderObject, h]

/-- Witness for C10 at the tag type, which the decoder does not support. -/
theorem C10_type_mapping_total_witness :
    _toSerializerType .CborTagType = .UNDEFINED ∧
    _createDecoderObject sampleTagValue emptyObject true true
      = (.UNDEFINED_TYPE, emptyObject) := by
  obtain ⟨-, -, -, -, -, -, hdef, hcreate⟩ := C10_type_mapping_total
  exact ⟨hdef .CborTagType (by decide) (by decide) (by decide) (by decide)
           (by decide) (by decide),
         hcreate sampleTagValue emptyObject true true rfl⟩

/-- C8: with cbor_parser_init reporting success _init always returns SUCCESS,
and with cbor_value_enter_container reporting success _stepIn always returns
SUCCESS, both discarding whatever _createDecoderObject returned; in particular
an unsupported leading CBOR type still reports SUCCESS with the object left
partially initialized, and a failed container allocation still reports
SUCCESS. -/
theorem C8_init_stepIn_discard_error :
    (∀ v obj ok, (_init true v obj ok).1 = .SUCCESS) ∧
    (∀ iv obj fo ok, (_stepIn true iv obj fo ok).1 = .SUCCESS) ∧
    (∀ v obj ok, _toSerializerType v.type = .UNDEFINED →
        (_createDecoderObject v obj true ok).1 = .UNDEFINED_TYPE ∧
        _init true v obj ok = (.SUCCESS, obj)) ∧
    (∀ v obj, v.type = .CborMapType →
        (_createDecoderObject v obj true false).1 = .OUT_OF_MEMORY ∧
        (_init true v obj false).1 = .SUCCESS) := by
  refine ⟨?_, ?_, ?_, ?_⟩
  · intro v obj ok
    simp [_init]
  · intro iv obj fo ok
    simp [_stepIn]
  · intro v obj ok h
    constructor
    · simp [_createDecoderObject, h]
    · simp [_init, _createDecoderObject, h]
  · intro v obj h
    constructor
    · simp [_createDecoderObject, h, _toSerializerType]
    · simp [_init]

/-- Witness for C8: an unsupported tag as the first value and an allocation
failure on a map both leave _init reporting SUCCESS. -/
theorem C8_init_stepIn_discard_error_witness :
    _toSerializerType sampleTagValue.type = .UNDEFINED ∧
    _init true sampleTagValue emptyObject true = (.SUCCESS, emptyObject) ∧
    sampleMapValue.type = .CborMapType ∧
    (_createDecoderObject sampleMapValue emptyObject true false).1 = .OUT_OF_MEMORY ∧
    (_init true sampleMapValue emptyObject false).1 = .SUCCESS := by
  obtain ⟨-, -, h3, h4⟩ := C8_init_stepIn_discard_error
  refine ⟨rfl, (h3 sampleTagValue emptyObject true rfl).2, rfl,
    (h4 sampleMapValue emptyObject rfl).1, (h4 sampleMapValue emptyObject rfl).2⟩

/-- C1: Resume returns SUCCESS and re-enters Active exactly when the session
state is Failed or TimedOut; from any other state (Aborted and Complete among
them) the call rejects and leaves the session unchanged, so those states never
re-enter Active via Resume. -/
theorem C1_resume_iff_failed_or_timedout :
    ∀ s : Session,
      (((AwsIotLargeObjectTransfer_Resume s).1 = .SUCCESS ∧
        (AwsIotLargeObjectTransfer_Resume s).2.state = .Active) ↔
        (s.state = .Failed ∨ s.state = .TimedOut)) ∧
      (s.state ≠ .Failed → s.state ≠ .TimedOut →
        AwsIotLargeObjectTransfer_Resume s = (.INVALID_PARAM, s)) := by
  intro s
  constructor
  · cases hs : s.state <;> simp [AwsIotLargeObjectTransfer_Resume, hs]
  · intro h1 h2
    cases hs : s.state <;> simp_all [AwsIotLargeObjectTransfer_Resume]

/-- Witness for C1: a Failed session resumes into Active; an Aborted session
is rejected unchanged. -/
theorem C1_resume_iff_failed_or_timedout_witness :
    ((AwsIotLargeObjectTransfer_Resume sampleFailedSession).1 = .SUCCESS ∧
     (AwsIotLargeObjectTransfer_Resume sampleFailedSession).2.state = .Active) ∧
    AwsIotLargeObjectTransfer_Resume sampleAbortedSession
      = (.INVALID_PARAM, sampleAbortedSession) :=
  ⟨(C1_resume_iff_failed_or_timedout sampleFailedSession).1.mpr (Or.inl rfl),
   (C1_resume_iff_failed_or_timedout sampleAbortedSession).2
     (by decide) (by decide)⟩

/-- C4: Destroy returns SUCCESS and releases the handle exactly in the five
states Idle, Complete, Failed, TimedOut and Aborted; in every other state it
fails with SESSION_IN_PROGRESS and the session survives unchanged. -/
theorem C4_destroy_guard :
    ∀ s : Session,
      (s.state ∈ destroyAllowed →
        AwsIotLargeObjectTransfer_Destroy s = (.SUCCESS, none)) ∧
      (s.state ∉ destroyAllowed →
        AwsIotLargeObjectTransfer_Destroy s = (.SESSION_IN_PROGRESS, some s)) := by
  intro s
  constructor <;> intro h <;> cases hs : s.state <;>
    simp_all [destroyAllowed, AwsIotLargeObjectTransfer_Destroy]

/-- Witness for C4: an Idle session is released; an Active session is rejected
with SESSION_IN_PROGRESS. -/
theorem C4_destroy_guard_witness :
    (sampleIdleSession.state ∈ destroyAllowed ∧
     AwsIotLargeObjectTransfer_Destroy sampleIdleSession = (.SUCCESS, none)) ∧
    (sampleActiveSession.state ∉ destroyAllowed ∧
     AwsIotLargeObjectTransfer_Destroy sampleActiveSession
       = (.SESSION_IN_PROGRESS, some sampleActiveSession)) :=
  ⟨⟨by decide, (C4_destroy_guard sampleIdleSession).1 (by decide)⟩,
   ⟨by decide, (C4_destroy_guard sampleActiveSession).2 (by decide)⟩⟩

/-- C5: with every present-bit set on both sides, any successful negotiation
agrees on the receiver's blockSize, the minimum of the two windowSize values
and the sender's timeoutMilliseconds and numRetransmission; and with a zero
receiver blockSize the negotiation yields INVALID_PARAM and the session does
not enter Active (it is left unchanged). -/
theorem C5_negotiation_rule :
    ∀ (snd rcv : ParamProposal) (d : AgreedParams) (s : Session),
      snd.hasBlockSize = true → snd.hasWindowSize = true →
      snd.hasTimeout = true → snd.hasRetrans = true →
      rcv.hasBlockSize = true → rcv.hasWindowSize = true →
      rcv.hasTimeout = true → rcv.hasRetrans = true →
      (∀ a, negotiateParams snd rcv d = .ok a →
        a.blockSize = rcv.blockSize ∧
        a.windowSize = min snd.windowSize rcv.windowSize ∧
        a.timeoutMilliseconds = snd.timeoutMilliseconds ∧
        a.numRetransmission = snd.numRetransmission) ∧
      (rcv.blockSize = 0 →
        negotiateParams snd rcv d = .error .INVALID_PARAM ∧
        startSession s snd rcv d = (.INVALID_PARAM, s)) := by
  intro snd rcv d s h1 h2 h3 h4 h5 h6 h7 h8
  constructor
  · intro a ha
    simp only [negotiateParams, h1, h2, h3, h4, h5, h6, h7, h8,
      Bool.and_self, if_true, if_pos] at ha
    split at ha
    · cases ha
      exact ⟨rfl, rfl, rfl, rfl⟩
    · cases ha
  · intro hz
    have hng : negotiateParams snd rcv d = .error .INVALID_PARAM := by
      simp only [negotiateParams, h1, h2, h3, h4, h5, h6, h7, h8,
        Bool.and_self, if_true, if_pos, hz]
      simp
    refine ⟨hng, ?_⟩
    simp [startSession, hng]

/-- Sample sender proposal with all bits set. -/
def sampleSenderProposal : ParamProposal := ⟨true, 4, true, 8, true, 500, true, 3⟩

/-- Sample receiver proposal with all bits set. -/
def sampleReceiverProposal : ParamProposal := ⟨true, 2, true, 5, true, 900, true, 7⟩

/-- Sample receiver proposal carrying a zero block size. -/
def sampleZeroReceiverProposal : ParamProposal := ⟨true, 0, true, 5, true, 900, true, 7⟩

/-- Sample defaults for unset negotiation fields. -/
def sampleDefaults : AgreedParams := ⟨1, 1, 1, 1⟩

/-- Witness for C5: the concrete negotiation picks the receiver's block size 2,
the minimum window 5 and the sender's timeout 500 and retry count 3; the
zero-block-size receiver makes it fail with INVALID_PARAM and the idle session
stays out of Active. -/
theorem C5_negotiation_rule_witness :
    negotiateParams sampleSenderProposal sampleReceiverProposal sampleDefaults
      = .ok ⟨2, 5, 500, 3⟩ ∧
    ((2 : Nat) = sampleReceiverProposal.blockSize ∧
     (5 : Nat) = min sampleSenderProposal.windowSize sampleReceiverProposal.windowSize ∧
     (500 : Nat) = sampleSenderProposal.timeoutMilliseconds ∧
     (3 : Nat) = sampleSenderProposal.numRetransmission) ∧
    (negotiateParams sampleSenderProposal sampleZeroReceiverProposal sampleDefaults
      = .error .INVALID_PARAM ∧
     startSession sampleIdleSession sampleSenderProposal sampleZeroReceiverProposal
       sampleDefaults = (.INVALID_PARAM, sampleIdleSession)) := by
  have h := C5_negotiation_rule sampleSenderProposal sampleReceiverProposal
    sampleDefaults sampleIdleSession rfl rfl rfl rfl rfl rfl rfl rfl
  have hz := C5_negotiation_rule sampleSenderProposal sampleZeroReceiverProposal
    sampleDefaults sampleIdleSession rfl rfl rfl rfl rfl rfl rfl rfl
  refine ⟨rfl, ?_, hz.2 rfl⟩
  have := h.1 ⟨2, 5, 500, 3⟩ rfl
  exact ⟨this.1.symm, this.2.1.symm, this.2.2.1.symm, this.2.2.2.symm⟩

/-- C6: for object size S ≥ 1 and block size B ≥ 1 the segmenter produces
exactly ceil(S/B) = numBlocks S B blocks (with B * numBlocks the first
multiple of B reaching S); every block except the last has length B, the last
has length S - B * (numBlocks - 1); and every byte position x < S lies in
exactly one block, so the blocks partition [0, S) with no gaps and no
overlaps. -/
theorem C6_blocks_partition (S B : Nat) (hS : 1 ≤ S) (hB : 1 ≤ B) :
    (sendBlocks S B).length = numBlocks S B ∧
    S ≤ B * numBlocks S B ∧
    B * (numBlocks S B - 1) < S ∧
    (∀ i, i + 1 < numBlocks S B → blockLength S B i = B) ∧
    blockLength S B (numBlocks S B - 1) = S - B * (numBlocks S B - 1) ∧
    (∀ x, x < S → ∃! i, i < numBlocks S B ∧
        i * B ≤ x ∧ x < i * B + blockLength S B i) := by
  have h1 := Nat.div_add_mod (S + B - 1) B
  have h2 : (S + B - 1) % B < B := Nat.mod_lt _ (by omega)
  have hnb : numBlocks S B = (S + B - 1) / B := rfl
  rw [← hnb] at h1
  have hkey1 : S ≤ B * numBlocks S B := by omega
  have hq1 : 1 ≤ numBlocks S B := by
    rcases Nat.eq_zero_or_pos (numBlocks S B) with h0 | h0
    · rw [h0] at hkey1; omega
    · exact h0
  obtain ⟨q0, hq0⟩ : ∃ q0, numBlocks S B = q0 + 1 :=
    ⟨numBlocks S B - 1, by omega⟩
  have hsplit : B * (q0 + 1) = B * q0 + B := by ring
  have hq0S : B * q0 < S := by
    have h3 := h1
    rw [hq0] at h3
    omega
  have hup : S ≤ B * q0 + B := by
    have h3 := hkey1
    rw [hq0] at h3
    omega
  have hkey2 : B * (numBlocks S B - 1) < S := by
    rw [hq0]
    simpa using hq0S
  refine ⟨by simp [sendBlocks], hkey1, hkey2, ?_, ?_, ?_⟩
  · intro i hi
    rw [hq0] at hi
    have hle : (i + 1) * B ≤ q0 * B := Nat.mul_le_mul (by omega) (Nat.le_refl B)
    have e1 : (i + 1) * B = i * B + B := by ring
    have e2 : q0 * B = B * q0 := Nat.mul_comm _ _
    unfold blockLength
    omega
  · rw [hq0]
    simp only [Nat.add_sub_cancel]
    unfold blockLength
    have e2 : q0 * B = B * q0 := Nat.mul_comm _ _
    omega
  · intro x hx
    have hxd := Nat.div_add_mod x B
    have hxm : x % B < B := Nat.mod_lt _ (by omega)
    have elink : x / B * B = B * (x / B) := Nat.mul_comm _ _
    have hin : x / B < numBlocks S B := by
      by_contra hcon
      push_neg at hcon
      have hmm : B * numBlocks S B ≤ B * (x / B) :=
        Nat.mul_le_mul (Nat.le_refl B) hcon
      omega
    refine ⟨x / B, ⟨hin, Nat.div_mul_le_self x B, ?_⟩, ?_⟩
    · unfold blockLength
      omega
    · rintro j ⟨hj1, hj2, hj3⟩
      unfold blockLength at hj3
      have hxub : x < j * B + B := by omega
      have hle2 : j ≤ x / B := (Nat.le_div_iff_mul_le (by omega)).mpr hj2
      have hge2 : x / B < j + 1 := by
        apply (Nat.div_lt_iff_lt_mul (by omega)).mpr
        calc x < j * B + B := hxub
        _ = (j + 1) * B := by ring
      omega

/-- Witness for C6 at S = 10, B = 4: three blocks (0,4), (4,4), (8,2). -/
theorem C6_blocks_partition_witness :
    sendBlocks 10 4 = [(0, 4), (4, 4), (8, 2)] ∧
    ((sendBlocks 10 4).length = numBlocks 10 4 ∧
     10 ≤ 4 * numBlocks 10 4 ∧
     4 * (numBlocks 10 4 - 1) < 10 ∧
     (∀ i, i + 1 < numBlocks 10 4 → blockLength 10 4 i = 4) ∧
     blockLength 10 4 (numBlocks 10 4 - 1) = 10 - 4 * (numBlocks 10 4 - 1) ∧
     (∀ x, x < 10 → ∃! i, i < numBlocks 10 4 ∧
         i * 4 ≤ x ∧ x < i * 4 + blockLength 10 4 i)) :=
  ⟨rfl, C6_blocks_partition 10 4 (by decide) (by decide)⟩
